import Mathlib

/-!
Verification of the EdgeX SDK example scripts and test runners.

The repository consists of five Python files: `advanced_usage.py` (the `EdgeXTrader`
example class), `basic_usage.py`, and three test-runner scripts
(`run_integration_tests.py`, `run_mock_tests.py`, `run_public_tests.py`).
This file gives a shallow embedding of the parts of those scripts that the
claims concern: Python-like JSON values and dictionaries, the trader's local
state and its update/refresh methods, the WebSocket message handlers, and the
runner scripts' environment handling and exit codes.

Conventions of the embedding:
* Python/JSON values are the inductive `PyVal`; Python dicts whose keys are
  arbitrary values are association lists `PDict` looked up by structural
  equality (Python's `==` on JSON data).
* A Python operation that can raise returns `Except PyErr _`; a bare
  `try/except Exception` wrapper is `handler_result` (handlers) or explicit
  `match` (methods returning booleans).
* `json.loads` applied to a WebSocket message string is modelled by its
  outcome, `Option PyVal` (`none` = the string was not valid JSON).
* Awaited SDK calls (`client.create_order`, `client.get_active_orders`, ...)
  are opaque; each method takes the call's outcome `Except PyErr PyVal` as an
  argument (an `.error` is an exception raised at that call site).
* Item assignment `x[k] = v` and key membership `k in x` are modelled with
  dict semantics; applied to a non-dict container they raise `typeError`
  (exact for the string keys the scripts use).
-/

/-- Python/JSON values as produced by `json.loads` and handled by the example
scripts: `None`, booleans, integers, strings, lists and dicts. -/
inductive PyVal where
  | null : PyVal
  | bool (b : Bool) : PyVal
  | int (n : Int) : PyVal
  | str (s : String) : PyVal
  | list (xs : List PyVal) : PyVal
  | dict (kvs : List (PyVal × PyVal)) : PyVal
  deriving Repr

mutual

/-- Structural equality on `PyVal`, matching Python `==` on JSON data. -/
def PyVal.beq : PyVal → PyVal → Bool
  | .null, .null => true
  | .bool a, .bool b => a == b
  | .int a, .int b => a == b
  | .str a, .str b => a == b
  | .list xs, .list ys => PyVal.beqList xs ys
  | .dict xs, .dict ys => PyVal.beqKV xs ys
  | _, _ => false

/-- Pointwise `PyVal.beq` on lists of values. -/
def PyVal.beqList : List PyVal → List PyVal → Bool
  | [], [] => true
  | x :: xs, y :: ys => PyVal.beq x y && PyVal.beqList xs ys
  | _, _ => false

/-- Pointwise `PyVal.beq` on lists of key-value pairs. -/
def PyVal.beqKV : List (PyVal × PyVal) → List (PyVal × PyVal) → Bool
  | [], [] => true
  | (k1, v1) :: xs, (k2, v2) :: ys => PyVal.beq k1 k2 && PyVal.beq v1 v2 && PyVal.beqKV xs ys
  | _, _ => false

end

mutual

theorem PyVal.beq_iff : ∀ a b : PyVal, PyVal.beq a b = true ↔ a = b
  | .null, .null => by simp [PyVal.beq]
  | .null, .bool _ | .null, .int _ | .null, .str _ | .null, .list _ | .null, .dict _ => by
      simp [PyVal.beq]
  | .bool _, .null | .bool _, .int _ | .bool _, .str _ | .bool _, .list _ | .bool _, .dict _ => by
      simp [PyVal.beq]
  | .int _, .null | .int _, .bool _ | .int _, .str _ | .int _, .list _ | .int _, .dict _ => by
      simp [PyVal.beq]
  | .str _, .null | .str _, .bool _ | .str _, .int _ | .str _, .list _ | .str _, .dict _ => by
      simp [PyVal.beq]
  | .list _, .null | .list _, .bool _ | .list _, .int _ | .list _, .str _ | .list _, .dict _ => by
      simp [PyVal.beq]
  | .dict _, .null | .dict _, .bool _ | .dict _, .int _ | .dict _, .str _ | .dict _, .list _ => by
      simp [PyVal.beq]
  | .bool a, .bool b => by simp [PyVal.beq]
  | .int a, .int b => by simp [PyVal.beq]
  | .str a, .str b => by simp [PyVal.beq]
  | .list xs, .list ys => by
      simp only [PyVal.beq, PyVal.list.injEq]
      exact PyVal.beqList_iff xs ys
  | .dict xs, .dict ys => by
      simp only [PyVal.beq, PyVal.dict.injEq]
      exact PyVal.beqKV_iff xs ys

theorem PyVal.beqList_iff : ∀ xs ys : List PyVal, PyVal.beqList xs ys = true ↔ xs = ys
  | [], [] => by simp [PyVal.beqList]
  | [], _ :: _ => by simp [PyVal.beqList]
  | _ :: _, [] => by simp [PyVal.beqList]
  | x :: xs, y :: ys => by
      simp only [PyVal.beqList, Bool.and_eq_true, List.cons.injEq]
      rw [PyVal.beq_iff x y, PyVal.beqList_iff xs ys]

theorem PyVal.beqKV_iff : ∀ xs ys : List (PyVal × PyVal), PyVal.beqKV xs ys = true ↔ xs = ys
  | [], [] => by simp [PyVal.beqKV]
  | [], _ :: _ => by simp [PyVal.beqKV]
  | _ :: _, [] => by simp [PyVal.beqKV]
  | (k1, v1) :: xs, (k2, v2) :: ys => by
      simp only [PyVal.beqKV, Bool.and_eq_true, List.cons.injEq, Prod.mk.injEq]
      rw [PyVal.beq_iff k1 k2, PyVal.beq_iff v1 v2, PyVal.beqKV_iff xs ys]

end

instance : DecidableEq PyVal := fun a b =>
  decidable_of_iff (PyVal.beq a b = true) (PyVal.beq_iff a b)

/-- Python truthiness of a value, as used by the scripts' `if x:` guards:
`None`, `False`, `0`, `""`, `[]` and an empty dict are falsy, all else truthy. -/
def PyVal.truthy : PyVal → Bool
  | .null => false
  | .bool b => b
  | .int n => n != 0
  | .str s => s ≠ ""
  | .list xs => xs ≠ []
  | .dict kvs => kvs ≠ []

mutual

/-- Python `repr()` of a value (as used for elements inside containers). -/
def PyVal.pyRepr : PyVal → String
  | .null => "None"
  | .bool b => if b then "True" else "False"
  | .int n => toString n
  | .str s => "'" ++ s ++ "'"
  | .list xs => "[" ++ PyVal.pyReprList xs ++ "]"
  | .dict kvs => "\x7b" ++ PyVal.pyReprKV kvs ++ "\x7d"

/-- Comma-separated `repr` of list elements. -/
def PyVal.pyReprList : List PyVal → String
  | [] => ""
  | [x] => PyVal.pyRepr x
  | x :: xs => PyVal.pyRepr x ++ ", " ++ PyVal.pyReprList xs

/-- Comma-separated `repr` of dict entries. -/
def PyVal.pyReprKV : List (PyVal × PyVal) → String
  | [] => ""
  | [(k, v)] => PyVal.pyRepr k ++ ": " ++ PyVal.pyRepr v
  | (k, v) :: kvs => PyVal.pyRepr k ++ ": " ++ PyVal.pyRepr v ++ ", " ++ PyVal.pyReprKV kvs

end

/-- Python `str()` of a value, as interpolated by the scripts' f-strings:
a string renders as itself, every other value as its `repr`. -/
def PyVal.pyStr : PyVal → String
  | .str s => s
  | v => PyVal.pyRepr v

/-- A Python dict whose keys and values are arbitrary values, as an association
list; lookup and assignment use structural equality, as Python uses `==`. -/
abbrev PDict := List (PyVal × PyVal)

/-- Dict lookup: the value stored under `key`, if any (first matching entry). -/
def PDict.find? : PDict → PyVal → Option PyVal
  | [], _ => none
  | (k, v) :: rest, key => if k = key then some v else PDict.find? rest key

/-- Dict item assignment `d[k] = v`: overwrite the entry for `k` in place if
present, otherwise append a new entry (Python's insertion-order semantics). -/
def PDict.set : PDict → PyVal → PyVal → PDict
  | [], k, v => [(k, v)]
  | (k0, v0) :: rest, k, v =>
      if k0 = k then (k0, v) :: rest else (k0, v0) :: PDict.set rest k v

/-- Python exceptions distinguished by the embedding: `ValueError` raised by the
scripts themselves (carrying its message), attribute/type errors from applying
dict operations to non-dicts, and opaque exceptions raised inside the external
SDK or transport (`external`). -/
inductive PyErr where
  | valueError (msg : String)
  | attributeError
  | typeError
  | external (msg : String)
  deriving Repr, DecidableEq

/-- Python `x.get(key, default)` on a response/message value: returns the entry
stored under the string `key` (or `default` when absent) when `x` is a dict,
and raises `AttributeError` otherwise, as `.get` does on non-dicts. -/
def pyGet (x : PyVal) (key : String) (dflt : PyVal) : Except PyErr PyVal :=
  match x with
  | .dict kvs => .ok ((PDict.find? kvs (.str key)).getD dflt)
  | _ => .error .attributeError

/-- Python iteration `for v in x`: the elements of a list, the keys of a dict,
the one-character strings of a string; other values raise `TypeError`. -/
def pyIter (x : PyVal) : Except PyErr (List PyVal) :=
  match x with
  | .list xs => .ok xs
  | .dict kvs => .ok (kvs.map (·.1))
  | .str s => .ok (s.toList.map (fun c => .str (String.mk [c])))
  | _ => .error .typeError

/-- Python `len(x)` for containers; other values raise `TypeError`. -/
def pyLen (x : PyVal) : Except PyErr Nat :=
  match x with
  | .list xs => .ok xs.length
  | .dict kvs => .ok kvs.length
  | .str s => .ok s.length
  | _ => .error .typeError

/-- The response check repeated in every `EdgeXTrader` request method
(`advanced_usage.py`, e.g. lines 363-368): when `result.get("code")` is not
`"SUCCESS"`, raise a `ValueError` whose message is the method's prefix followed
by `errorParam` when that is truthy, and by the code otherwise. -/
def checkResponse (pfx : String) (result : PyVal) : Except PyErr Unit := do
  let code ← pyGet result "code" .null
  if code = .str "SUCCESS" then
    return ()
  else
    let ep ← pyGet result "errorParam" .null
    if ep.truthy then
      throw (.valueError (pfx ++ ep.pyStr))
    else
      throw (.valueError (pfx ++ code.pyStr))

/-- The local in-memory state of an `EdgeXTrader` (`advanced_usage.py`,
lines 65-70): `metadata` (initially `None`), the maps `contracts`,
`market_data`, `active_orders`, `positions`, and the `assets` snapshot. -/
structure TraderState where
  metadata : PyVal
  contracts : PDict
  market_data : PDict
  active_orders : PDict
  positions : PDict
  assets : PyVal
  deriving Repr, DecidableEq

/-- The state of a freshly constructed `EdgeXTrader` (`__init__`). -/
def initState : TraderState :=
  { metadata := .null, contracts := [], market_data := [], active_orders := [],
    positions := [], assets := .dict [] }

/-- The accumulation loop shared (textually) by the contracts, positions and
active-orders refreshes: for each element, read its `key` field via `.get`
(raising on non-dicts) and store the element under that key when the key is
truthy. The pair's second component is the exception, if one was raised; the
first is the dict as mutated up to that point, since in Python earlier
iterations' assignments persist when a later element raises. -/
def keyed_loop (key : String) : List PyVal → PDict → PDict × Option PyErr
  | [], acc => (acc, none)
  | o :: rest, acc =>
      match pyGet o key .null with
      | .error e => (acc, some e)
      | .ok kid =>
          if kid.truthy then keyed_loop key rest (acc.set kid o)
          else keyed_loop key rest acc

/-- The order-list extraction of `update_active_orders` (line 125):
`active_orders_response.get("data", {}).get("list", [])`, iterated. -/
def ordersOf (resp : PyVal) : Except PyErr (List PyVal) := do
  let d ← pyGet resp "data" (.dict [])
  let l ← pyGet d "list" (.list [])
  pyIter l

/-- `EdgeXTrader.update_active_orders` (lines 119-138): on a successful fetch,
reset `active_orders` and re-fill it keyed by each order's truthy `orderId`;
any exception (at the fetch, the envelope unwrapping, or mid-loop) is caught,
logged and turned into a `False` return, leaving the state as mutated so far. -/
def update_active_orders (st : TraderState) (fetch : Except PyErr PyVal) :
    TraderState × Bool :=
  match fetch with
  | .error _ => (st, false)
  | .ok resp =>
      match ordersOf resp with
      | .error _ => (st, false)
      | .ok order_list =>
          match keyed_loop "orderId" order_list [] with
          | (m, none) => ({ st with active_orders := m }, true)
          | (m, some _) => ({ st with active_orders := m }, false)

/-- `EdgeXTrader.initialize_websocket` (lines 140-173): a sequence of connect
and subscribe calls on the WebSocket manager, none of which touches the
trader's maps; `ops` is the composite outcome of those external calls. Any
exception is caught, logged, and turned into a `False` return. -/
def init_websocket (ops : Except PyErr Unit) : Bool :=
  match ops with
  | .ok _ => true
  | .error _ => false

/-- `EdgeXTrader.close` (lines 591-602): disconnect the WebSocket manager;
exceptions are caught, logged and turned into a `False` return. -/
def close (disconnect : Except PyErr Unit) : Bool :=
  match disconnect with
  | .ok _ => true
  | .error _ => false

/-- The contract-list extraction of `initialize` (line 82):
`self.metadata.get("data", {}).get("contractList", [])`, iterated. -/
def contractsOf (md : PyVal) : Except PyErr (List PyVal) := do
  let d ← pyGet md "data" (.dict [])
  let cl ← pyGet d "contractList" (.list [])
  pyIter cl

/-- The position-list extraction of `initialize` (lines 97-98):
`positions_response.get("data", {}).get("positionList", [])`, iterated. -/
def positionsOf (pr : PyVal) : Except PyErr (List PyVal) := do
  let d ← pyGet pr "data" (.dict [])
  let pl ← pyGet d "positionList" (.list [])
  pyIter pl

/-- `EdgeXTrader.initialize` (lines 72-117), named `init_trader` here: fetch
metadata, accumulate contracts onto the existing `contracts` map, fetch assets
and positions, then run `update_active_orders` and `initialize_websocket`
(whose boolean results the source ignores) and return `True`. Any exception is
caught, logged and turned into a `False` return, with all assignments made
before the raising point kept, as in Python. The four awaited fetches and the
WebSocket call sequence are the `Except`-valued arguments. -/
def init_trader (st : TraderState) (mdR assetsR posR : Except PyErr PyVal)
    (ordersR : Except PyErr PyVal) (wsR : Except PyErr Unit) : TraderState × Bool :=
  match mdR with
  | .error _ => (st, false)
  | .ok md =>
    let st1 := { st with metadata := md }
    match contractsOf md with
    | .error _ => (st1, false)
    | .ok contract_list =>
      match keyed_loop "contractId" contract_list st1.contracts with
      | (cmap, some _) => ({ st1 with contracts := cmap }, false)
      | (cmap, none) =>
        let st2 := { st1 with contracts := cmap }
        match assetsR with
        | .error _ => (st2, false)
        | .ok ar =>
          match pyGet ar "data" (.dict []) with
          | .error _ => (st2, false)
          | .ok a =>
            let st3 := { st2 with assets := a }
            match posR with
            | .error _ => (st3, false)
            | .ok pr =>
              match positionsOf pr with
              | .error _ => (st3, false)
              | .ok position_list =>
                match keyed_loop "contractId" position_list st3.positions with
                | (pmap, some _) => ({ st3 with positions := pmap }, false)
                | (pmap, none) =>
                  let st4 := { st3 with positions := pmap }
                  let st5 := (update_active_orders st4 ordersR).1
                  let _ := init_websocket wsR
                  (st5, true)

/-- The post-check logging read of `create_limit_order` and the two getters
(e.g. line 373 / 494 / 542): `result.get('data', {}).get('orderId')` resp.
`len(result.get('data', {}).get('list', []))`, either of which can raise. -/
def dataField (r : PyVal) (key : String) (dflt : PyVal) : Except PyErr PyVal := do
  let d ← pyGet r "data" (.dict [])
  pyGet d key dflt

/-- `EdgeXTrader.create_limit_order` (lines 322-378): await the SDK call, run
the `"SUCCESS"` check, refresh the active orders, log the created order id and
return the response. Any exception — at the call site, the `ValueError` from
the check, or the logging read — is logged and re-raised. `res` is the outcome
of `client.create_order`, `refresh` the outcome of the `get_active_orders`
fetch inside the post-call refresh. -/
def create_limit_order (st : TraderState) (res : Except PyErr PyVal)
    (refresh : Except PyErr PyVal) : TraderState × Except PyErr PyVal :=
  match res with
  | .error e => (st, .error e)
  | .ok r =>
      match checkResponse "Failed to create order: " r with
      | .error e => (st, .error e)
      | .ok _ =>
          let st1 := (update_active_orders st refresh).1
          match dataField r "orderId" .null with
          | .error e => (st1, .error e)
          | .ok _ => (st1, .ok r)

/-- `EdgeXTrader.cancel_order` (lines 380-415): like `create_limit_order` but
with the cancel prefix; the final log only interpolates the `order_id`
argument, so it cannot raise. -/
def cancel_order (st : TraderState) (order_id : String) (res : Except PyErr PyVal)
    (refresh : Except PyErr PyVal) : TraderState × Except PyErr PyVal :=
  match res with
  | .error e => (st, .error e)
  | .ok r =>
      match checkResponse "Failed to cancel order: " r with
      | .error e => (st, .error e)
      | .ok _ =>
          let st1 := (update_active_orders st refresh).1
          let _ := order_id
          (st1, .ok r)

/-- `EdgeXTrader.cancel_all_orders` (lines 417-452): cancel with an optional
contract id (defaulted to `""` in the request parameters), the orders prefix,
and a non-raising final log. -/
def cancel_all_orders (st : TraderState) (contract_id : Option String)
    (res : Except PyErr PyVal) (refresh : Except PyErr PyVal) :
    TraderState × Except PyErr PyVal :=
  match res with
  | .error e => (st, .error e)
  | .ok r =>
      match checkResponse "Failed to cancel orders: " r with
      | .error e => (st, .error e)
      | .ok _ =>
          let st1 := (update_active_orders st refresh).1
          let _ := contract_id
          (st1, .ok r)

/-- `EdgeXTrader.get_order_fill_transactions` (lines 454-499): await the SDK
call, run the `"SUCCESS"` check, log the length of the returned list and
return the response; every exception is logged and re-raised. The trader's
state is never touched. -/
def get_order_fill_transactions (res : Except PyErr PyVal) : Except PyErr PyVal :=
  match res with
  | .error e => .error e
  | .ok r =>
      match checkResponse "Failed to get order fill transactions: " r with
      | .error e => .error e
      | .ok _ =>
          match dataField r "list" (.list []) with
          | .error e => .error e
          | .ok l =>
              match pyLen l with
              | .error e => .error e
              | .ok _ => .ok r

/-- `EdgeXTrader.get_k_line` (lines 501-547): same shape as
`get_order_fill_transactions` with the K-line prefix. -/
def get_k_line (res : Except PyErr PyVal) : Except PyErr PyVal :=
  match res with
  | .error e => .error e
  | .ok r =>
      match checkResponse "Failed to get K-line data: " r with
      | .error e => .error e
      | .ok _ =>
          match dataField r "list" (.list []) with
          | .error e => .error e
          | .ok l =>
              match pyLen l with
              | .error e => .error e
              | .ok _ => .ok r

/-- `EdgeXTrader.get_order_book_depth` (lines 549-589): the `"SUCCESS"` check
with the depth prefix; the final log only interpolates the contract id, so it
cannot raise. -/
def get_order_book_depth (res : Except PyErr PyVal) : Except PyErr PyVal :=
  match res with
  | .error e => .error e
  | .ok r =>
      match checkResponse "Failed to get order book depth: " r with
      | .error e => .error e
      | .ok _ => .ok r

/-- Outcome of `json.loads(message)` for a WebSocket message: `some` parsed
value, or `none` when the message was not valid JSON (a raised `ValueError`). -/
def jsonLoads (msg : Option PyVal) : Except PyErr PyVal :=
  match msg with
  | some v => .ok v
  | none => .error (.valueError "invalid json")

/-- The `try ... except Exception` wrapper shared by all six WebSocket
handlers: a raised exception is caught and logged, the handler returns
normally and the state keeps the mutations made before the raise (here: none,
since every handler body mutates only as its final step on dicts that were
valid). The handler's observable outcome is always a normal return. -/
def handler_result (body : Except PyErr TraderState) (st : TraderState) :
    Except PyErr TraderState :=
  match body with
  | .ok st' => .ok st'
  | .error _ => .ok st

/-- The envelope unwrapping shared by the account, position, K-line and depth
handlers: `data.get("content", {}).get("data", {})`. -/
def envelopeData (d : PyVal) : Except PyErr PyVal := do
  let c ← pyGet d "content" (.dict [])
  pyGet c "data" (.dict [])

/-- `EdgeXTrader.handle_account_update` (lines 175-193): parse the message and
overwrite `assets` with the envelope payload when that payload is truthy. -/
def handle_account_update (msg : Option PyVal) (st : TraderState) :
    Except PyErr TraderState :=
  handler_result
    (do
      let d ← jsonLoads msg
      let account_data ← envelopeData d
      if account_data.truthy then
        return { st with assets := account_data }
      else
        return st)
    st

/-- `EdgeXTrader.handle_order_update` (lines 195-211): parse the message, then
schedule a fire-and-forget `update_active_orders` task. The scheduling itself
changes no trader map synchronously, so the handler leaves the state as is. -/
def handle_order_update (msg : Option PyVal) (st : TraderState) :
    Except PyErr TraderState :=
  handler_result
    (do
      let _ ← jsonLoads msg
      return st)
    st

/-- `EdgeXTrader.handle_position_update` (lines 213-233): parse the message,
unwrap the envelope, and store the payload in `positions` under its
`contractId` when that key is truthy. -/
def handle_position_update (msg : Option PyVal) (st : TraderState) :
    Except PyErr TraderState :=
  handler_result
    (do
      let d ← jsonLoads msg
      let position_data ← envelopeData d
      let contract_id ← pyGet position_data "contractId" .null
      if contract_id.truthy then
        return { st with positions := st.positions.set contract_id position_data }
      else
        return st)
    st

/-- The single-ticker selection of `handle_ticker_update` (lines 250-254): the
first element of a non-empty list, otherwise the value itself. -/
def tickerDatum (tdl : PyVal) : PyVal :=
  match tdl with
  | .list (x :: _) => x
  | _ => tdl

/-- The contract-id extraction of `handle_ticker_update` (line 256):
`ticker_data.get("contractId") if isinstance(ticker_data, dict) else None`. -/
def tickerCid (td : PyVal) : PyVal :=
  match td with
  | .dict kvs => (PDict.find? kvs (.str "contractId")).getD .null
  | _ => .null

/-- The guarded write into a `market_data` sub-map shared by the ticker and
depth handlers (e.g. lines 259-262): create the sub-dict under `slot` when the
slot is absent, then assign `payload` under `cid` inside it; assigning into a
non-dict slot value raises `TypeError` (with no mutation, since the slot was
then already present). -/
def mdWrite (st : TraderState) (slot : String) (cid payload : PyVal) :
    Except PyErr TraderState :=
  let md := st.market_data
  let md1 := if (PDict.find? md (.str slot)).isSome then md
             else md.set (.str slot) (.dict [])
  match PDict.find? md1 (.str slot) with
  | some (.dict kvs) =>
      let md2 := PDict.set md1 (.str slot) (.dict (PDict.set kvs cid payload))
      .ok { st with market_data := md2 }
  | _ => .error .typeError

/-- `EdgeXTrader.handle_ticker_update` (lines 235-266): parse the message,
read `content.data`, take the first ticker of a list (or the value itself),
and when its `contractId` is truthy store it under `market_data["ticker"]`. -/
def handle_ticker_update (msg : Option PyVal) (st : TraderState) :
    Except PyErr TraderState :=
  handler_result
    (do
      let d ← jsonLoads msg
      let content ← pyGet d "content" (.dict [])
      let ticker_data_list ← pyGet content "data" (.list [])
      let ticker_data := tickerDatum ticker_data_list
      let contract_id := tickerCid ticker_data
      if contract_id.truthy then
        mdWrite st "ticker" contract_id ticker_data
      else
        return st)
    st

/-- The two-level guarded write of `handle_kline_update` (lines 284-291):
create `market_data["kline"]` and its per-contract sub-dict when absent, then
assign the payload under the interval; a non-dict at either level raises
`TypeError` with no mutation committed, as in Python. -/
def klineWrite (st : TraderState) (cid interval payload : PyVal) :
    Except PyErr TraderState :=
  let md := st.market_data
  let md1 := if (PDict.find? md (.str "kline")).isSome then md
             else md.set (.str "kline") (.dict [])
  match PDict.find? md1 (.str "kline") with
  | some (.dict kl) =>
      let kl1 := if (PDict.find? kl cid).isSome then kl else PDict.set kl cid (.dict [])
      match PDict.find? kl1 cid with
      | some (.dict inner) =>
          let md2 :=
            PDict.set md1 (.str "kline")
              (.dict (PDict.set kl1 cid (.dict (PDict.set inner interval payload))))
          .ok { st with market_data := md2 }
      | _ => .error .typeError
  | _ => .error .typeError

/-- `EdgeXTrader.handle_kline_update` (lines 268-295): parse the message,
unwrap the envelope, and when both `contractId` and `interval` are truthy
store the payload under `market_data["kline"][contractId][interval]`. -/
def handle_kline_update (msg : Option PyVal) (st : TraderState) :
    Except PyErr TraderState :=
  handler_result
    (do
      let d ← jsonLoads msg
      let kline_data ← envelopeData d
      let contract_id ← pyGet kline_data "contractId" .null
      let interval ← pyGet kline_data "interval" .null
      if contract_id.truthy && interval.truthy then
        klineWrite st contract_id interval kline_data
      else
        return st)
    st

/-- `EdgeXTrader.handle_depth_update` (lines 297-320): parse the message,
unwrap the envelope, and when `contractId` is truthy store the payload under
`market_data["depth"][contractId]`. -/
def handle_depth_update (msg : Option PyVal) (st : TraderState) :
    Except PyErr TraderState :=
  handler_result
    (do
      let d ← jsonLoads msg
      let depth_data ← envelopeData d
      let contract_id ← pyGet depth_data "contractId" .null
      if contract_id.truthy then
        mdWrite st "depth" contract_id depth_data
      else
        return st)
    st

/-- The entry stored under key `k` of the sub-dict at `slot` of the trader's
`market_data`, if both levels are present dicts (observation helper for the
handler theorems). -/
def innerMap (st : TraderState) (slot : String) (k : PyVal) : Option PyVal :=
  match PDict.find? st.market_data (.str slot) with
  | some (.dict kvs) => PDict.find? kvs k
  | _ => none

/-- The K-line record stored for contract `c` and interval `i`, if present
(observation helper for the kline handler theorems). -/
def klineAt (st : TraderState) (c i : PyVal) : Option PyVal :=
  match innerMap st "kline" c with
  | some (.dict inner) => PDict.find? inner i
  | _ => none

/-- A process environment: variable-name/value pairs, as `os.environ`. -/
abbrev Env := List (String × String)

/-- `os.getenv(name)` / `os.environ.get(name)`: the first value stored under
`name`, if any. -/
def envGet : Env → String → Option String
  | [], _ => none
  | (k, v) :: rest, name => if k = name then some v else envGet rest name

/-- `os.environ[name] = value`: overwrite in place or append. -/
def envSet : Env → String → String → Env
  | [], name, value => [(name, value)]
  | (k, v) :: rest, name, value =>
      if k = name then (k, value) :: rest else (k, v) :: envSet rest name value

/-- Modelled from the spec: `check_env_vars` lives in
`tests/integration/config`, which is not part of the supplied source; per the
spec ("Missing required environment variables must cause the integration-test
runner to exit with a non-zero status before invoking any test") it reports
which of the `required` variables are not set, as a record with an `all_set`
flag and the list `missing_vars`. -/
structure EnvStatus where
  all_set : Bool
  missing_vars : List String
  deriving Repr, DecidableEq

/-- Modelled from the spec: the required variables that are unset in `env`,
together with the flag saying whether there are none. -/
def check_env_vars (required : List String) (env : Env) : EnvStatus :=
  let missing := required.filter (fun v => (envGet env v).isNone)
  { all_set := missing.isEmpty, missing_vars := missing }

/-- Observable outcome of running one of the test-runner scripts: the process
exit code passed to `sys.exit`, and whether the wrapped test suite was ever
invoked. -/
structure RunOutcome where
  exit_code : Int
  test_invoked : Bool
  deriving Repr, DecidableEq

/-- `run_integration_tests.py` (lines 21-39): check the environment; when some
required variable is missing, log and `sys.exit(1)` without starting the test
subprocess; otherwise run `tests.integration` as a subprocess (whose return
code is `subRet`) and exit with that same code. -/
def run_integration_tests (required : List String) (env : Env) (subRet : Int) :
    RunOutcome :=
  let env_status := check_env_vars required env
  if env_status.all_set then { exit_code := subRet, test_invoked := true }
  else { exit_code := 1, test_invoked := false }

/-- The environment mutations of `run_mock_tests.py` (lines 26-30), applied in
source order: dummy base/WebSocket URLs, account id and private key, and the
`"mock"` signing adapter. -/
def mock_env (env : Env) : Env :=
  envSet
    (envSet
      (envSet
        (envSet
          (envSet env "EDGEX_BASE_URL" "https://testnet.edgex.exchange")
          "EDGEX_WS_URL" "wss://testnet.edgex.exchange")
        "EDGEX_ACCOUNT_ID" "12345")
      "EDGEX_STARK_PRIVATE_KEY"
      "0123456789abcdef0123456789abcdef0123456789abcdef0123456789abcdef")
    "EDGEX_SIGNING_ADAPTER" "mock"

/-- `run_mock_tests.py` (lines 26-41): set the dummy environment, run
`tests.integration` as a subprocess (which inherits that environment and
returns `subRet`), and exit with the subprocess's return code. The first
component is the environment the subprocess is invoked with. -/
def run_mock_tests (env : Env) (subRet : Int) : Env × RunOutcome :=
  (mock_env env, { exit_code := subRet, test_invoked := true })

/-- Outcome of the `unittest` run wrapped by `run_public_tests.py`: the lists
of recorded failures and errors (each entry a test description). -/
structure TestResult where
  failures : List String
  errors : List String
  deriving Repr, DecidableEq

/-- The environment mutations of `run_public_tests.py` (lines 22-28). -/
def public_env (env : Env) : Env :=
  envSet
    (envSet
      (envSet
        (envSet
          (envSet
            (envSet env "EDGEX_BASE_URL" "https://pro.edgex.exchange")
            "EDGEX_WS_URL" "wss://quote.edgex.exchange")
          "EDGEX_ACCOUNT_ID" "0")
        "EDGEX_STARK_PRIVATE_KEY"
        "0000000000000000000000000000000000000000000000000000000000000000")
      "EDGEX_SIGNING_ADAPTER" "mock")
    "EDGEX_PUBLIC_ONLY" "true"

/-- `run_public_tests.py` (lines 22-52): set the public-endpoint environment,
run the discovered unittest suite in-process with result `res`, and exit with
`len(result.failures) + len(result.errors)`. -/
def run_public_tests (env : Env) (res : TestResult) : Env × RunOutcome :=
  (public_env env,
   { exit_code := (res.failures.length + res.errors.length : Int), test_invoked := true })

/-- Digit-string parsing of Python `int()`, after sign and whitespace removal:
non-empty, digits with single underscores strictly between digits
(`int("1_000")` is valid, leading/trailing/doubled underscores are not). -/
def pyIntDigits (cs : List Char) : Option Nat :=
  if cs = [] then none
  else if cs.head? = some '_' || cs.getLast? = some '_' then none
  else if (cs.zip cs.tail).any (fun p => p.1 = '_' && p.2 = '_') then none
  else if cs.all (fun c => c.isDigit || c = '_') then
    some ((cs.filter (· ≠ '_')).foldl (fun n c => 10 * n + (c.toNat - '0'.toNat)) 0)
  else none

/-- Python `int(s)` applied to a string, as in `int(os.getenv(...))`: strip
surrounding (ASCII) whitespace, allow one leading sign, then parse the digit
string; `none` models the raised `ValueError` for invalid literals. -/
def pyInt (s : String) : Option Int :=
  let cs := ((s.toList.dropWhile Char.isWhitespace).reverse.dropWhile
    Char.isWhitespace).reverse
  match cs with
  | '+' :: rest => (pyIntDigits rest).map Int.ofNat
  | '-' :: rest => (pyIntDigits rest).map (fun n => -(n : Int))
  | _ => (pyIntDigits cs).map Int.ofNat

/-- The configuration read by `basic_usage.main` (lines 26-29): base URL,
account id and Stark private key, with the script's hard-coded defaults. -/
structure BasicConfig where
  base_url : String
  account_id : Int
  stark_private_key : String
  deriving Repr, DecidableEq

/-- `basic_usage.main` configuration loading (lines 26-29): every variable is
optional with a hard-coded default; `int()` applied to the account id raises a
`ValueError` when it is not a valid integer literal. -/
def basic_load_config (env : Env) : Except PyErr BasicConfig :=
  let base_url := (envGet env "EDGEX_BASE_URL").getD "https://testnet.edgex.exchange"
  let account_str := (envGet env "EDGEX_ACCOUNT_ID").getD "12345"
  match pyInt account_str with
  | none => .error (.valueError ("invalid literal for int() with base 10: " ++ PyVal.pyRepr (.str account_str)))
  | some a =>
      .ok { base_url := base_url, account_id := a,
            stark_private_key :=
              (envGet env "EDGEX_STARK_PRIVATE_KEY").getD "your-stark-private-key" }

/-- The configuration read by `advanced_usage.main` (lines 607-611): as the
basic one, plus the WebSocket URL with its default. -/
structure AdvancedConfig where
  base_url : String
  ws_url : String
  account_id : Int
  stark_private_key : String
  deriving Repr, DecidableEq

/-- `advanced_usage.main` configuration loading (lines 607-611). -/
def advanced_load_config (env : Env) : Except PyErr AdvancedConfig :=
  let base_url := (envGet env "EDGEX_BASE_URL").getD "https://testnet.edgex.exchange"
  let ws_url := (envGet env "EDGEX_WS_URL").getD "wss://quote-testnet.edgex.exchange"
  let account_str := (envGet env "EDGEX_ACCOUNT_ID").getD "12345"
  match pyInt account_str with
  | none => .error (.valueError ("invalid literal for int() with base 10: " ++ PyVal.pyRepr (.str account_str)))
  | some a =>
      .ok { base_url := base_url, ws_url := ws_url, account_id := a,
            stark_private_key :=
              (envGet env "EDGEX_STARK_PRIVATE_KEY").getD "your-stark-private-key" }

/-- The prefix of `basic_usage.main` up to its first client call: load the
configuration, then construct the client and start calling it. The boolean
records whether execution reached a client call; a `ValueError` from `int()`
propagates out of `main` before any call is made. -/
def basic_main_run (env : Env) : Except PyErr BasicConfig × Bool :=
  match basic_load_config env with
  | .error e => (.error e, false)
  | .ok c => (.ok c, true)

/-- The prefix of `advanced_usage.main` up to the trader's first client call,
with the same reading as `basic_main_run`. -/
def advanced_main_run (env : Env) : Except PyErr AdvancedConfig × Bool :=
  match advanced_load_config env with
  | .error e => (.error e, false)
  | .ok c => (.ok c, true)

/-- String containment: `needle` occurs verbatim inside `hay` (the sense in
which an error message "includes" a field's rendered value). -/
def strContains (hay needle : String) : Prop :=
  ∃ pre post, hay = pre ++ needle ++ post

/-- The last element of a fetched list whose truthy `key` field equals `k` —
the entry that survives in the rebuilt map, later duplicates overwriting
earlier ones. -/
def lastKeyed (key : String) : List PyVal → PyVal → Option PyVal
  | [], _ => none
  | o :: rest, k =>
      match lastKeyed key rest k with
      | some r => some r
      | none =>
          match pyGet o key .null with
          | .ok kid => if kid.truthy && kid = k then some o else none
          | .error _ => none

/-- The property asserted by the claim about `update_active_orders`, stated
from the claim's words for comparison with the code: the map contains exactly
the entries of the fetched list, each stored under its `orderId` field. -/
def containsExactlyKeyed (l : List PyVal) (m : PDict) : Prop :=
  (∀ o ∈ l, ∃ k, pyGet o "orderId" .null = .ok k ∧ m.find? k = some o) ∧
  (∀ p ∈ m, p.2 ∈ l)

/-- Observation helper: the `errorParam` field of a response map, `None` when
absent (what `result.get("errorParam")` yields). -/
def failParam (kvs : PDict) : PyVal :=
  (PDict.find? kvs (.str "errorParam")).getD .null

/-- Observation helper: the `code` field of a response map, `None` when absent
(what `result.get("code")` yields). -/
def failCode (kvs : PDict) : PyVal :=
  (PDict.find? kvs (.str "code")).getD .null

/-- Observation helper: the message of the `ValueError` raised by the
`"SUCCESS"` check — the method prefix followed by the rendered `errorParam`
when truthy, and by the rendered code otherwise. -/
def failMsg (pfx : String) (kvs : PDict) : String :=
  if (failParam kvs).truthy then pfx ++ (failParam kvs).pyStr
  else pfx ++ (failCode kvs).pyStr

/-- A concrete rejected response, used to witness the failure-path theorems. -/
def respRejected : PDict :=
  [(.str "code", .str "ORDER_REJECTED"), (.str "errorParam", .str "size too small")]

deriving instance DecidableEq for Except

/-- Boolean observation: did an `Except`-modelled Python expression evaluate
without raising? -/
def isOkE (r : Except PyErr PyVal) : Bool :=
  match r with
  | .ok _ => true
  | .error _ => false

/-- A fetched response whose single order is stored under `orderId` `"A"`,
used to witness the refresh theorem. -/
def respSingle : PyVal :=
  .dict [(.str "code", .str "SUCCESS"),
         (.str "data", .dict [(.str "list",
           .list [.dict [(.str "orderId", .str "A"), (.str "size", .str "1")]])])]

/-- A trader state holding a stale order from an earlier fetch. -/
def stStale : TraderState :=
  { initState with active_orders := [(.str "OLD", .dict [])] }

/-- A successful fetch whose single order lacks an `orderId`: the rebuilt map
silently drops it, refuting the claim that the map contains exactly the
fetched entries keyed by their `orderId`. -/
def respDropped : PyVal :=
  .dict [(.str "code", .str "SUCCESS"),
         (.str "data", .dict [(.str "list", .list [.dict []])])]

/-- A minimal successful response map. -/
def respOk : PDict := [(.str "code", .str "SUCCESS")]

/-- Boolean observation: did a handler invocation return normally? -/
def isOkH (r : Except PyErr TraderState) : Bool :=
  match r with
  | .ok _ => true
  | .error _ => false

/-- The state resulting from a handler invocation (`dflt` when it raised —
which the wrapped handlers never do). -/
def stateOfH (r : Except PyErr TraderState) (dflt : TraderState) : TraderState :=
  match r with
  | .ok s => s
  | .error _ => dflt

/-- Boolean observation: the `market_data` entry under `slot` is either absent
or a dict — the shapes under which the guarded write succeeds (the only shapes
the program itself ever stores there). -/
def slotOkB (st : TraderState) (slot : String) : Bool :=
  match PDict.find? st.market_data (.str slot) with
  | none => true
  | some (.dict _) => true
  | _ => false

/-- Boolean observation: both levels reached by the K-line write are absent or
dicts. -/
def klineOkB (st : TraderState) (cid : PyVal) : Bool :=
  match PDict.find? st.market_data (.str "kline") with
  | none => true
  | some (.dict kl) =>
      match PDict.find? kl cid with
      | none => true
      | some (.dict _) => true
      | _ => false
  | _ => false

/-- Concrete position push payload. -/
def pdPos : PyVal := .dict [(.str "contractId", .str "10000001"), (.str "size", .str "2")]

/-- Concrete position push message. -/
def msgPos : PyVal := .dict [(.str "content", .dict [(.str "data", pdPos)])]

/-- Concrete ticker entries. -/
def tkvsTick : PDict :=
  [(.str "contractId", .str "10000001"), (.str "lastPrice", .str "30000")]

/-- Concrete ticker push message (payload wrapped in a one-element list). -/
def msgTick : PyVal :=
  .dict [(.str "content", .dict [(.str "data", .list [.dict tkvsTick])])]

/-- Concrete K-line push payload. -/
def kdKli : PyVal :=
  .dict [(.str "contractId", .str "10000001"), (.str "interval", .str "1m"),
         (.str "close", .str "30000")]

/-- Concrete K-line push message. -/
def msgKli : PyVal := .dict [(.str "content", .dict [(.str "data", kdKli)])]

/-- Concrete depth push payload. -/
def ddDep : PyVal := .dict [(.str "contractId", .str "10000001"), (.str "bids", .list [])]

/-- Concrete depth push message. -/
def msgDep : PyVal := .dict [(.str "content", .dict [(.str "data", ddDep)])]

/-- Concrete malformed push messages: truthy-key-free account, position,
ticker, K-line and depth envelopes. -/
def msgAccEmpty : PyVal := .dict [(.str "content", .dict [(.str "data", .dict [])])]

/-- Position envelope whose payload has no `contractId`. -/
def msgPosNoCid : PyVal :=
  .dict [(.str "content", .dict [(.str "data", .dict [(.str "size", .str "1")])])]

/-- Ticker envelope whose data list is empty. -/
def msgTickEmpty : PyVal := .dict [(.str "content", .dict [(.str "data", .list [])])]

/-- K-line envelope with a contract id but no interval. -/
def msgKliNoIv : PyVal :=
  .dict [(.str "content", .dict [(.str "data",
    .dict [(.str "contractId", .str "10000001")])])]

/-- Depth envelope whose payload has no `contractId`. -/
def msgDepNoCid : PyVal :=
  .dict [(.str "content", .dict [(.str "data", .dict [(.str "x", .int 1)])])]

theorem PDict.find?_set_self (d : PDict) (k v : PyVal) :
    (d.set k v).find? k = some v := by
  induction d with
  | nil => simp [PDict.set, PDict.find?]
  | cons hd tl ih =>
      obtain ⟨k0, v0⟩ := hd
      by_cases h : k0 = k <;> simp [PDict.set, PDict.find?, h, ih]

theorem PDict.find?_set_other (d : PDict) (k v k' : PyVal) (h : k' ≠ k) :
    (d.set k v).find? k' = d.find? k' := by
  have hk : ¬ k = k' := fun hh => h hh.symm
  induction d with
  | nil => simp [PDict.set, PDict.find?, hk]
  | cons hd tl ih =>
      obtain ⟨k0, v0⟩ := hd
      by_cases h0 : k0 = k
      · subst h0
        simp [PDict.set, PDict.find?, hk]
      · by_cases h1 : k0 = k' <;> simp [PDict.set, PDict.find?, h0, h1, ih, h]

theorem envGet_envSet_self (e : Env) (name value : String) :
    envGet (envSet e name value) name = some value := by
  induction e with
  | nil => simp [envSet, envGet]
  | cons hd tl ih =>
      obtain ⟨k, v⟩ := hd
      by_cases h : k = name <;> simp [envSet, envGet, h, ih]

theorem envGet_envSet_other (e : Env) (name value name' : String) (h : name' ≠ name) :
    envGet (envSet e name value) name' = envGet e name' := by
  have hk : ¬ name = name' := fun hh => h hh.symm
  induction e with
  | nil => simp [envSet, envGet, hk]
  | cons hd tl ih =>
      obtain ⟨k, v⟩ := hd
      by_cases h0 : k = name
      · subst h0
        simp [envSet, envGet, hk]
      · by_cases h1 : k = name' <;> simp [envSet, envGet, h0, h1, ih, h]

theorem strContains_append (pfx needle : String) : strContains (pfx ++ needle) needle := by
  refine ⟨pfx, "", ?_⟩
  rw [String.append_empty]

theorem checkResponse_fail (pfx : String) (kvs : PDict)
    (h : failCode kvs ≠ .str "SUCCESS") :
    checkResponse pfx (.dict kvs) = .error (.valueError (failMsg pfx kvs)) := by
  have h' : ¬ (PDict.find? kvs (.str "code")).getD .null = .str "SUCCESS" := h
  simp only [checkResponse, pyGet, failMsg, failParam, failCode, throw, throwThe,
    MonadExceptOf.throw, Bind.bind, Except.bind, if_neg h']
  split <;> rfl

theorem failMsg_contains (pfx : String) (kvs : PDict) :
    strContains (failMsg pfx kvs)
      (if (failParam kvs).truthy then (failParam kvs).pyStr else (failCode kvs).pyStr) := by
  by_cases htr : (failParam kvs).truthy <;>
    simp only [failMsg, htr, if_true, if_false, Bool.false_eq_true] <;>
    exact strContains_append _ _

/-- C1: for every API response map returned by `create_order`, `cancel_order`,
`get_order_fill_transactions`, `get_k_line` or `get_order_book_depth` whose
`code` field is not the string `"SUCCESS"`, the corresponding `EdgeXTrader`
method raises a `ValueError`, and the raised message includes the response's
`errorParam` value whenever that field is present and truthy, and the `code`
value otherwise. -/
theorem C1_non_success_raises (st : TraderState) (kvs : PDict) (order_id : String)
    (refresh : Except PyErr PyVal) (h : failCode kvs ≠ .str "SUCCESS") :
    (create_limit_order st (.ok (.dict kvs)) refresh =
        (st, .error (.valueError (failMsg "Failed to create order: " kvs)))) ∧
    (cancel_order st order_id (.ok (.dict kvs)) refresh =
        (st, .error (.valueError (failMsg "Failed to cancel order: " kvs)))) ∧
    (get_order_fill_transactions (.ok (.dict kvs)) =
        .error (.valueError (failMsg "Failed to get order fill transactions: " kvs))) ∧
    (get_k_line (.ok (.dict kvs)) =
        .error (.valueError (failMsg "Failed to get K-line data: " kvs))) ∧
    (get_order_book_depth (.ok (.dict kvs)) =
        .error (.valueError (failMsg "Failed to get order book depth: " kvs))) ∧
    strContains (failMsg "Failed to create order: " kvs)
      (if (failParam kvs).truthy then (failParam kvs).pyStr else (failCode kvs).pyStr) ∧
    strContains (failMsg "Failed to cancel order: " kvs)
      (if (failParam kvs).truthy then (failParam kvs).pyStr else (failCode kvs).pyStr) ∧
    strContains (failMsg "Failed to get order fill transactions: " kvs)
      (if (failParam kvs).truthy then (failParam kvs).pyStr else (failCode kvs).pyStr) ∧
    strContains (failMsg "Failed to get K-line data: " kvs)
      (if (failParam kvs).truthy then (failParam kvs).pyStr else (failCode kvs).pyStr) ∧
    strContains (failMsg "Failed to get order book depth: " kvs)
      (if (failParam kvs).truthy then (failParam kvs).pyStr else (failCode kvs).pyStr) := by
  refine ⟨?_, ?_, ?_, ?_, ?_, ?_, ?_, ?_, ?_, ?_⟩
  · simp [create_limit_order, checkResponse_fail "Failed to create order: " kvs h]
  · simp [cancel_order, checkResponse_fail "Failed to cancel order: " kvs h]
  · simp [get_order_fill_transactions,
      checkResponse_fail "Failed to get order fill transactions: " kvs h]
  · simp [get_k_line, checkResponse_fail "Failed to get K-line data: " kvs h]
  · simp [get_order_book_depth, checkResponse_fail "Failed to get order book depth: " kvs h]
  · exact failMsg_contains _ _
  · exact failMsg_contains _ _
  · exact failMsg_contains _ _
  · exact failMsg_contains _ _
  · exact failMsg_contains _ _

theorem C1_non_success_raises_witness :
    failCode respRejected ≠ PyVal.str "SUCCESS" ∧
    ((create_limit_order initState (.ok (.dict respRejected)) (.ok (.dict [])) =
        (initState, .error (.valueError (failMsg "Failed to create order: " respRejected)))) ∧
    (cancel_order initState "order-1" (.ok (.dict respRejected)) (.ok (.dict [])) =
        (initState, .error (.valueError (failMsg "Failed to cancel order: " respRejected)))) ∧
    (get_order_fill_transactions (.ok (.dict respRejected)) =
        .error (.valueError (failMsg "Failed to get order fill transactions: " respRejected))) ∧
    (get_k_line (.ok (.dict respRejected)) =
        .error (.valueError (failMsg "Failed to get K-line data: " respRejected))) ∧
    (get_order_book_depth (.ok (.dict respRejected)) =
        .error (.valueError (failMsg "Failed to get order book depth: " respRejected))) ∧
    strContains (failMsg "Failed to create order: " respRejected)
      (if (failParam respRejected).truthy then (failParam respRejected).pyStr
       else (failCode respRejected).pyStr) ∧
    strContains (failMsg "Failed to cancel order: " respRejected)
      (if (failParam respRejected).truthy then (failParam respRejected).pyStr
       else (failCode respRejected).pyStr) ∧
    strContains (failMsg "Failed to get order fill transactions: " respRejected)
      (if (failParam respRejected).truthy then (failParam respRejected).pyStr
       else (failCode respRejected).pyStr) ∧
    strContains (failMsg "Failed to get K-line data: " respRejected)
      (if (failParam respRejected).truthy then (failParam respRejected).pyStr
       else (failCode respRejected).pyStr) ∧
    strContains (failMsg "Failed to get order book depth: " respRejected)
      (if (failParam respRejected).truthy then (failParam respRejected).pyStr
       else (failCode respRejected).pyStr)) :=
  ⟨by decide,
   C1_non_success_raises initState respRejected "order-1" (.ok (.dict [])) (by decide)⟩

theorem check_env_vars_all_set_iff (required : List String) (env : Env) :
    (check_env_vars required env).all_set = true ↔
      (check_env_vars required env).missing_vars = [] := by
  simp [check_env_vars, List.isEmpty_iff]

/-- C4: whenever `check_env_vars` reports at least one required environment
variable missing, `run_integration_tests.py` exits with status 1 and the test
subprocess is never invoked. -/
theorem C4_missing_env_exits (required : List String) (env : Env) (subRet : Int)
    (h : (check_env_vars required env).missing_vars ≠ []) :
    run_integration_tests required env subRet =
      { exit_code := 1, test_invoked := false } := by
  have hset : (check_env_vars required env).all_set = false := by
    rcases hb : (check_env_vars required env).all_set with _ | _
    · rfl
    · exact absurd ((check_env_vars_all_set_iff required env).mp hb) h
  simp [run_integration_tests, hset]

theorem C4_missing_env_exits_witness :
    (check_env_vars ["EDGEX_ACCOUNT_ID", "EDGEX_STARK_PRIVATE_KEY"]
        [("EDGEX_BASE_URL", "https://testnet.edgex.exchange")]).missing_vars ≠ [] ∧
    run_integration_tests ["EDGEX_ACCOUNT_ID", "EDGEX_STARK_PRIVATE_KEY"]
        [("EDGEX_BASE_URL", "https://testnet.edgex.exchange")] 7 =
      { exit_code := 1, test_invoked := false } :=
  ⟨by decide,
   C4_missing_env_exits ["EDGEX_ACCOUNT_ID", "EDGEX_STARK_PRIVATE_KEY"]
     [("EDGEX_BASE_URL", "https://testnet.edgex.exchange")] 7 (by decide)⟩

/-- C5: the runner scripts' exit codes — `run_integration_tests.py` (when the
environment check passes, so the subprocess is actually started) and
`run_mock_tests.py` exit with exactly the wrapped subprocess's return code,
and `run_public_tests.py` exits with exactly the number of test failures plus
test errors. -/
theorem C5_exit_codes (required : List String) (env env2 env3 : Env)
    (subRet subRet2 : Int) (res : TestResult)
    (h : (check_env_vars required env).all_set = true) :
    run_integration_tests required env subRet =
      { exit_code := subRet, test_invoked := true } ∧
    (run_mock_tests env2 subRet2).2 =
      { exit_code := subRet2, test_invoked := true } ∧
    (run_public_tests env3 res).2 =
      { exit_code := (res.failures.length + res.errors.length : Int),
        test_invoked := true } := by
  refine ⟨?_, rfl, rfl⟩
  simp [run_integration_tests, h]

theorem C5_exit_codes_witness :
    (check_env_vars ["EDGEX_ACCOUNT_ID"] [("EDGEX_ACCOUNT_ID", "12345")]).all_set = true ∧
    (run_integration_tests ["EDGEX_ACCOUNT_ID"] [("EDGEX_ACCOUNT_ID", "12345")] 3 =
        { exit_code := 3, test_invoked := true } ∧
      (run_mock_tests [] 5).2 = { exit_code := 5, test_invoked := true } ∧
      (run_public_tests [] { failures := ["t1"], errors := ["t2", "t3"] }).2 =
        { exit_code := ((["t1"] : List String).length +
            (["t2", "t3"] : List String).length : Int), test_invoked := true }) :=
  ⟨by decide,
   C5_exit_codes ["EDGEX_ACCOUNT_ID"] [("EDGEX_ACCOUNT_ID", "12345")] [] [] 3 5
     { failures := ["t1"], errors := ["t2", "t3"] } (by decide)⟩

/-- C7: before the test subprocess is started, `run_mock_tests.py` sets
`EDGEX_SIGNING_ADAPTER` to `"mock"`, alongside the dummy values for the base
URL, WebSocket URL, account id and Stark private key; the subprocess is
invoked with exactly that environment. -/
theorem C7_mock_adapter (env : Env) (subRet : Int) :
    envGet (run_mock_tests env subRet).1 "EDGEX_SIGNING_ADAPTER" = some "mock" ∧
    envGet (run_mock_tests env subRet).1 "EDGEX_BASE_URL" =
      some "https://testnet.edgex.exchange" ∧
    envGet (run_mock_tests env subRet).1 "EDGEX_WS_URL" =
      some "wss://testnet.edgex.exchange" ∧
    envGet (run_mock_tests env subRet).1 "EDGEX_ACCOUNT_ID" = some "12345" ∧
    envGet (run_mock_tests env subRet).1 "EDGEX_STARK_PRIVATE_KEY" =
      some "0123456789abcdef0123456789abcdef0123456789abcdef0123456789abcdef" ∧
    (run_mock_tests env subRet).2.test_invoked = true := by
  refine ⟨?_, ?_, ?_, ?_, ?_, rfl⟩ <;>
    simp [run_mock_tests, mock_env, envGet_envSet_self, envGet_envSet_other]

/-- C10: both example entry points treat every configuration variable as
optional: with all four `EDGEX_*` variables unset the loaded configuration is
the hard-coded defaults (testnet base URL, testnet WebSocket URL, account id
`12345`, placeholder key); but when `EDGEX_ACCOUNT_ID` is set to a string that
is not a valid integer literal, `int()` raises a `ValueError` during
configuration loading, before any client call is made. -/
theorem C10_config_defaults_and_invalid_account (env1 env2 : Env) (s : String)
    (h1 : envGet env1 "EDGEX_BASE_URL" = none)
    (h2 : envGet env1 "EDGEX_WS_URL" = none)
    (h3 : envGet env1 "EDGEX_ACCOUNT_ID" = none)
    (h4 : envGet env1 "EDGEX_STARK_PRIVATE_KEY" = none)
    (h5 : envGet env2 "EDGEX_ACCOUNT_ID" = some s)
    (h6 : pyInt s = none) :
    basic_load_config env1 =
      .ok { base_url := "https://testnet.edgex.exchange", account_id := 12345,
            stark_private_key := "your-stark-private-key" } ∧
    advanced_load_config env1 =
      .ok { base_url := "https://testnet.edgex.exchange",
            ws_url := "wss://quote-testnet.edgex.exchange", account_id := 12345,
            stark_private_key := "your-stark-private-key" } ∧
    basic_main_run env2 =
      (.error (.valueError
        ("invalid literal for int() with base 10: " ++ PyVal.pyRepr (.str s))), false) ∧
    advanced_main_run env2 =
      (.error (.valueError
        ("invalid literal for int() with base 10: " ++ PyVal.pyRepr (.str s))), false) := by
  have hint : pyInt "12345" = some 12345 := by decide
  refine ⟨?_, ?_, ?_, ?_⟩
  · simp [basic_load_config, h1, h3, h4, hint]
  · simp [advanced_load_config, h1, h2, h3, h4, hint]
  · simp [basic_main_run, basic_load_config, h5, h6]
  · simp [advanced_main_run, advanced_load_config, h5, h6]

theorem C10_config_defaults_and_invalid_account_witness :
    (envGet [("HOME", "/root")] "EDGEX_BASE_URL" = none ∧
     envGet [("HOME", "/root")] "EDGEX_WS_URL" = none ∧
     envGet [("HOME", "/root")] "EDGEX_ACCOUNT_ID" = none ∧
     envGet [("HOME", "/root")] "EDGEX_STARK_PRIVATE_KEY" = none ∧
     envGet [("EDGEX_ACCOUNT_ID", "abc")] "EDGEX_ACCOUNT_ID" = some "abc" ∧
     pyInt "abc" = none) ∧
    (basic_load_config [("HOME", "/root")] =
      .ok { base_url := "https://testnet.edgex.exchange", account_id := 12345,
            stark_private_key := "your-stark-private-key" } ∧
    advanced_load_config [("HOME", "/root")] =
      .ok { base_url := "https://testnet.edgex.exchange",
            ws_url := "wss://quote-testnet.edgex.exchange", account_id := 12345,
            stark_private_key := "your-stark-private-key" } ∧
    basic_main_run [("EDGEX_ACCOUNT_ID", "abc")] =
      (.error (.valueError
        ("invalid literal for int() with base 10: " ++ PyVal.pyRepr (.str "abc"))), false) ∧
    advanced_main_run [("EDGEX_ACCOUNT_ID", "abc")] =
      (.error (.valueError
        ("invalid literal for int() with base 10: " ++ PyVal.pyRepr (.str "abc"))), false)) :=
  ⟨⟨by decide, by decide, by decide, by decide, by decide, by decide⟩,
   C10_config_defaults_and_invalid_account [("HOME", "/root")]
     [("EDGEX_ACCOUNT_ID", "abc")] "abc"
     (by decide) (by decide) (by decide) (by decide) (by decide) (by decide)⟩

theorem keyed_loop_ok (key : String) (l : List PyVal) (acc : PDict)
    (hl : ∀ o ∈ l, ∃ v, pyGet o key .null = Except.ok v) :
    (keyed_loop key l acc).2 = none ∧
    ∀ k, (keyed_loop key l acc).1.find? k =
      (lastKeyed key l k).or (acc.find? k) := by
  induction l generalizing acc with
  | nil => simp [keyed_loop, lastKeyed, Option.or]
  | cons o rest ih =>
      obtain ⟨v, hv⟩ := hl o (by simp)
      have hrest : ∀ o' ∈ rest, ∃ w, pyGet o' key .null = Except.ok w :=
        fun o' ho' => hl o' (by simp [ho'])
      by_cases htr : v.truthy
      · obtain ⟨ih1, ih2⟩ := ih (acc.set v o) hrest
        refine ⟨?_, ?_⟩
        · simpa [keyed_loop, hv, htr] using ih1
        · intro k
          have hmain : (keyed_loop key (o :: rest) acc).1.find? k =
              (lastKeyed key rest k).or ((acc.set v o).find? k) := by
            simpa [keyed_loop, hv, htr] using ih2 k
          rw [hmain]
          cases hr : lastKeyed key rest k with
          | some r => simp [lastKeyed, hr, Option.or]
          | none =>
              by_cases hk : v = k
              · subst hk
                simp [lastKeyed, hr, hv, htr, Option.or, PDict.find?_set_self]
              · simp [lastKeyed, hr, hv, htr, hk, Option.or,
                  PDict.find?_set_other acc v o k (fun hh => hk hh.symm)]
      · obtain ⟨ih1, ih2⟩ := ih acc hrest
        refine ⟨?_, ?_⟩
        · simpa [keyed_loop, hv, htr] using ih1
        · intro k
          have hmain : (keyed_loop key (o :: rest) acc).1.find? k =
              (lastKeyed key rest k).or (acc.find? k) := by
            simpa [keyed_loop, hv, htr] using ih2 k
          rw [hmain]
          cases hr : lastKeyed key rest k with
          | some r => simp [lastKeyed, hr, Option.or]
          | none => simp [lastKeyed, hr, hv, htr, Option.or]

/-- C2 (amended): after a refresh in which the `get_active_orders` fetch
succeeds and returns order list `l` all of whose elements are mappings, the
`active_orders` map holds, under each key `k`, exactly the last element of `l`
whose truthy `orderId` equals `k` — elements without a truthy `orderId` are
dropped, and of several elements sharing an `orderId` only the last survives —
with no entry from any earlier fetch remaining, and no other trader map is
touched. -/
theorem C2_active_orders_last_fetch (st : TraderState) (resp : PyVal)
    (l : List PyVal) (k : PyVal)
    (hresp : ordersOf resp = .ok l)
    (hl : l.all (fun o => isOkE (pyGet o "orderId" .null)) = true) :
    (update_active_orders st (.ok resp)).2 = true ∧
    (update_active_orders st (.ok resp)).1.active_orders.find? k =
      lastKeyed "orderId" l k ∧
    (update_active_orders st (.ok resp)).1.positions = st.positions ∧
    (update_active_orders st (.ok resp)).1.contracts = st.contracts ∧
    (update_active_orders st (.ok resp)).1.market_data = st.market_data ∧
    (update_active_orders st (.ok resp)).1.assets = st.assets ∧
    (update_active_orders st (.ok resp)).1.metadata = st.metadata := by
  have hl' : ∀ o ∈ l, ∃ v, pyGet o "orderId" .null = Except.ok v := by
    intro o ho
    have hok := (List.all_eq_true.mp hl) o ho
    cases hg : pyGet o "orderId" .null with
    | ok v => exact ⟨v, rfl⟩
    | error e => rw [hg] at hok; simp [isOkE] at hok
  obtain ⟨h2, hfind⟩ := keyed_loop_ok "orderId" l [] hl'
  rcases hkl : keyed_loop "orderId" l [] with ⟨m, e⟩
  have he : e = none := by rw [hkl] at h2; exact h2
  subst he
  have hf : m.find? k = lastKeyed "orderId" l k := by
    have h3 := hfind k
    rw [hkl] at h3
    rw [h3]
    cases lastKeyed "orderId" l k <;> simp [Option.or, PDict.find?]
  refine ⟨?_, ?_, ?_, ?_, ?_, ?_, ?_⟩ <;>
    simp [update_active_orders, hresp, hkl, hf]

theorem C2_active_orders_last_fetch_witness :
    (ordersOf respSingle =
        .ok [.dict [(.str "orderId", .str "A"), (.str "size", .str "1")]] ∧
      ([PyVal.dict [(.str "orderId", .str "A"), (.str "size", .str "1")]].all
        (fun o => isOkE (pyGet o "orderId" .null)) = true)) ∧
    ((update_active_orders stStale (.ok respSingle)).2 = true ∧
    (update_active_orders stStale (.ok respSingle)).1.active_orders.find?
        (.str "OLD") =
      lastKeyed "orderId"
        [.dict [(.str "orderId", .str "A"), (.str "size", .str "1")]] (.str "OLD") ∧
    (update_active_orders stStale (.ok respSingle)).1.positions = stStale.positions ∧
    (update_active_orders stStale (.ok respSingle)).1.contracts = stStale.contracts ∧
    (update_active_orders stStale (.ok respSingle)).1.market_data =
      stStale.market_data ∧
    (update_active_orders stStale (.ok respSingle)).1.assets = stStale.assets ∧
    (update_active_orders stStale (.ok respSingle)).1.metadata = stStale.metadata) :=
  ⟨⟨by decide, by decide⟩,
   C2_active_orders_last_fetch stStale respSingle
     [.dict [(.str "orderId", .str "A"), (.str "size", .str "1")]] (.str "OLD")
     (by decide) (by decide)⟩

/-- C2 (counterexample): a successful `update_active_orders` refresh whose
returned list holds one order with no `orderId` field completes with `True`,
yet the resulting `active_orders` map does not contain that entry at all. -/
theorem C2_contains_exactly_fails :
    ordersOf respDropped = .ok [.dict []] ∧
    (update_active_orders initState (.ok respDropped)).2 = true ∧
    ¬ containsExactlyKeyed [.dict []]
        (update_active_orders initState (.ok respDropped)).1.active_orders := by
  refine ⟨by decide, by decide, ?_⟩
  intro hce
  obtain ⟨h1, _⟩ := hce
  obtain ⟨kk, hk, hfind⟩ := h1 (.dict []) (by simp)
  have hm : (update_active_orders initState (.ok respDropped)).1.active_orders = [] := by
    decide
  rw [hm] at hfind
  simp [PDict.find?] at hfind

/-- C3 (amended): every exception arising at a call site is caught and logged;
on the order-mutation paths (`create_limit_order`, `cancel_order`,
`cancel_all_orders`) and on the three request-reading paths
(`get_order_fill_transactions`, `get_k_line`, `get_order_book_depth`) it is
re-raised, while on `initialize` (any of its fetch sites),
`update_active_orders`, `initialize_websocket` and `close` it is converted to
a `False` return rather than propagated. -/
theorem C3_call_site_error_handling (st : TraderState) (e : PyErr)
    (order_id : String) (contract_id : Option String)
    (refresh assetsR posR ordersR : Except PyErr PyVal)
    (md : PyVal) (wsR : Except PyErr Unit) :
    create_limit_order st (.error e) refresh = (st, .error e) ∧
    cancel_order st order_id (.error e) refresh = (st, .error e) ∧
    cancel_all_orders st contract_id (.error e) refresh = (st, .error e) ∧
    get_order_fill_transactions (.error e) = .error e ∧
    get_k_line (.error e) = .error e ∧
    get_order_book_depth (.error e) = .error e ∧
    (init_trader st (.error e) assetsR posR ordersR wsR).2 = false ∧
    (init_trader st (.ok md) (.error e) posR ordersR wsR).2 = false ∧
    (init_trader st (.ok md) assetsR (.error e) ordersR wsR).2 = false ∧
    update_active_orders st (.error e) = (st, false) ∧
    init_websocket (.error e) = false ∧
    close (.error e) = false := by
  refine ⟨rfl, rfl, rfl, rfl, rfl, rfl, rfl, ?_, ?_, rfl, rfl, rfl⟩
  · unfold init_trader
    cases hc : contractsOf md with
    | error e2 => simp [hc]
    | ok cl =>
        rcases hkl : keyed_loop "contractId" cl ({ st with metadata := md }).contracts
          with ⟨cmap, err⟩
        cases err with
        | none => simp [hc, hkl]
        | some e5 => simp [hc, hkl]
  · unfold init_trader
    cases hc : contractsOf md with
    | error e2 => simp [hc]
    | ok cl =>
        rcases hkl : keyed_loop "contractId" cl ({ st with metadata := md }).contracts
          with ⟨cmap, err⟩
        cases err with
        | none =>
            cases assetsR with
            | error e3 => simp [hc, hkl]
            | ok ar =>
                cases hg : pyGet ar "data" (.dict []) with
                | error e4 => simp [hc, hkl, hg]
                | ok a => simp [hc, hkl, hg]
        | some e5 => simp [hc, hkl]

/-- C3 (counterexample): an exception injected at the `get_k_line` call site is
re-raised by `EdgeXTrader.get_k_line` (lines 545-547 end in `raise`), not
converted to a boolean `False` return as the claim asserts for that path. -/
theorem C3_get_k_line_propagates :
    get_k_line (.error (.external "boom")) = .error (.external "boom") ∧
    get_k_line (.error (.external "boom")) ≠ .ok (.bool false) :=
  ⟨rfl, by decide⟩

theorem checkResponse_ok (pfx : String) (kvs : PDict)
    (h : failCode kvs = .str "SUCCESS") :
    checkResponse pfx (.dict kvs) = .ok () := by
  have h' : (PDict.find? kvs (.str "code")).getD .null = .str "SUCCESS" := h
  simp [checkResponse, pyGet, Bind.bind, Except.bind, if_pos h', pure, Except.pure]

/-- C8: in `create_limit_order`, `cancel_order` and `cancel_all_orders`, a
non-`"SUCCESS"` response raises the `ValueError` before `update_active_orders`
is called, so the trader's local state is returned unchanged by the failed
call; the post-call refresh of `active_orders` happens exactly on a
`"SUCCESS"` response. -/
theorem C8_failed_mutation_leaves_state (st : TraderState) (kvs kvs2 : PDict)
    (order_id : String) (contract_id : Option String)
    (refresh : Except PyErr PyVal)
    (h : failCode kvs ≠ .str "SUCCESS")
    (h2 : failCode kvs2 = .str "SUCCESS") :
    create_limit_order st (.ok (.dict kvs)) refresh =
      (st, .error (.valueError (failMsg "Failed to create order: " kvs))) ∧
    cancel_order st order_id (.ok (.dict kvs)) refresh =
      (st, .error (.valueError (failMsg "Failed to cancel order: " kvs))) ∧
    cancel_all_orders st contract_id (.ok (.dict kvs)) refresh =
      (st, .error (.valueError (failMsg "Failed to cancel orders: " kvs))) ∧
    (create_limit_order st (.ok (.dict kvs2)) refresh).1 =
      (update_active_orders st refresh).1 ∧
    (cancel_order st order_id (.ok (.dict kvs2)) refresh).1 =
      (update_active_orders st refresh).1 ∧
    (cancel_all_orders st contract_id (.ok (.dict kvs2)) refresh).1 =
      (update_active_orders st refresh).1 := by
  refine ⟨?_, ?_, ?_, ?_, ?_, ?_⟩
  · simp [create_limit_order, checkResponse_fail "Failed to create order: " kvs h]
  · simp [cancel_order, checkResponse_fail "Failed to cancel order: " kvs h]
  · simp [cancel_all_orders, checkResponse_fail "Failed to cancel orders: " kvs h]
  · cases hdf : dataField (.dict kvs2) "orderId" .null <;>
      simp [create_limit_order, checkResponse_ok "Failed to create order: " kvs2 h2, hdf]
  · simp [cancel_order, checkResponse_ok "Failed to cancel order: " kvs2 h2]
  · simp [cancel_all_orders, checkResponse_ok "Failed to cancel orders: " kvs2 h2]

theorem C8_failed_mutation_leaves_state_witness :
    (failCode respRejected ≠ PyVal.str "SUCCESS" ∧
      failCode respOk = PyVal.str "SUCCESS") ∧
    (create_limit_order stStale (.ok (.dict respRejected)) (.ok respSingle) =
      (stStale, .error (.valueError (failMsg "Failed to create order: " respRejected))) ∧
    cancel_order stStale "order-1" (.ok (.dict respRejected)) (.ok respSingle) =
      (stStale, .error (.valueError (failMsg "Failed to cancel order: " respRejected))) ∧
    cancel_all_orders stStale (some "10000001") (.ok (.dict respRejected))
        (.ok respSingle) =
      (stStale, .error (.valueError (failMsg "Failed to cancel orders: " respRejected))) ∧
    (create_limit_order stStale (.ok (.dict respOk)) (.ok respSingle)).1 =
      (update_active_orders stStale (.ok respSingle)).1 ∧
    (cancel_order stStale "order-1" (.ok (.dict respOk)) (.ok respSingle)).1 =
      (update_active_orders stStale (.ok respSingle)).1 ∧
    (cancel_all_orders stStale (some "10000001") (.ok (.dict respOk))
        (.ok respSingle)).1 =
      (update_active_orders stStale (.ok respSingle)).1) :=
  ⟨⟨by decide, by decide⟩,
   C8_failed_mutation_leaves_state stStale respRejected respOk "order-1"
     (some "10000001") (.ok respSingle) (by decide) (by decide)⟩

theorem mdWrite_spec (st : TraderState) (slot : String) (cid td k' : PyVal)
    (hs : slotOkB st slot = true) (hk : k' ≠ cid) :
    ∃ st1, mdWrite st slot cid td = .ok st1 ∧
      innerMap st1 slot cid = some td ∧
      innerMap st1 slot k' = innerMap st slot k' ∧
      st1.positions = st.positions ∧ st1.active_orders = st.active_orders ∧
      st1.contracts = st.contracts ∧ st1.assets = st.assets ∧
      st1.metadata = st.metadata := by
  cases hslot : PDict.find? st.market_data (.str slot) with
  | none =>
      refine ⟨{ st with market_data := PDict.set (PDict.set st.market_data (.str slot) (.dict [])) (.str slot) (.dict (PDict.set [] cid td)) }, ?_, ?_, ?_, rfl, rfl, rfl, rfl, rfl⟩
      · simp [mdWrite, hslot, PDict.find?_set_self]
      · simp [innerMap, PDict.find?_set_self]
      · simp [innerMap, PDict.find?_set_self, hslot,
          PDict.find?_set_other _ _ _ _ hk, PDict.find?, Ne.symm hk]
  | some v =>
      cases v with
      | dict kvs =>
          refine ⟨{ st with market_data := PDict.set st.market_data (.str slot) (.dict (PDict.set kvs cid td)) }, ?_, ?_, ?_, rfl, rfl, rfl, rfl, rfl⟩
          · simp [mdWrite, hslot]
          · simp [innerMap, PDict.find?_set_self]
          · simp [innerMap, PDict.find?_set_self, hslot,
              PDict.find?_set_other _ _ _ _ hk]
      | null => simp [slotOkB, hslot] at hs
      | bool b => simp [slotOkB, hslot] at hs
      | int n => simp [slotOkB, hslot] at hs
      | str s => simp [slotOkB, hslot] at hs
      | list xs => simp [slotOkB, hslot] at hs

theorem klineWrite_spec (st : TraderState) (cid interval kd k' i' : PyVal)
    (hs : klineOkB st cid = true) (hk : k' ≠ cid) (hi : i' ≠ interval) :
    ∃ st1, klineWrite st cid interval kd = .ok st1 ∧
      klineAt st1 cid interval = some kd ∧
      klineAt st1 cid i' = klineAt st cid i' ∧
      (∀ i2, klineAt st1 k' i2 = klineAt st k' i2) ∧
      st1.positions = st.positions ∧ st1.active_orders = st.active_orders ∧
      st1.contracts = st.contracts ∧ st1.assets = st.assets ∧
      st1.metadata = st.metadata := by
  cases hslot : PDict.find? st.market_data (.str "kline") with
  | none =>
      refine ⟨{ st with market_data := PDict.set (PDict.set st.market_data (.str "kline") (.dict [])) (.str "kline") (.dict (PDict.set (PDict.set [] cid (.dict [])) cid (.dict (PDict.set [] interval kd)))) }, ?_, ?_, ?_, ?_, rfl, rfl, rfl, rfl, rfl⟩
      · simp [klineWrite, hslot, PDict.find?_set_self, PDict.find?]
      · simp [klineAt, innerMap, PDict.find?_set_self]
      · simp [klineAt, innerMap, PDict.find?_set_self, hslot,
          PDict.find?_set_other _ _ _ _ hi, PDict.find?, Ne.symm hi, Ne.symm hk]
      · intro i2
        simp [klineAt, innerMap, PDict.find?_set_self, hslot,
          PDict.find?_set_other _ _ _ _ hk, PDict.find?, Ne.symm hi, Ne.symm hk]
  | some v =>
      cases v with
      | dict kl =>
          cases hcell : PDict.find? kl cid with
          | none =>
              refine ⟨{ st with market_data := PDict.set st.market_data (.str "kline") (.dict (PDict.set (PDict.set kl cid (.dict [])) cid (.dict (PDict.set [] interval kd)))) }, ?_, ?_, ?_, ?_, rfl, rfl, rfl, rfl, rfl⟩
              · simp [klineWrite, hslot, hcell, PDict.find?_set_self]
              · simp [klineAt, innerMap, PDict.find?_set_self]
              · simp [klineAt, innerMap, PDict.find?_set_self, hslot, hcell,
                  PDict.find?_set_other _ _ _ _ hi, PDict.find?, Ne.symm hi, Ne.symm hk]
              · intro i2
                simp [klineAt, innerMap, PDict.find?_set_self, hslot, hcell,
                  PDict.find?_set_other _ _ _ _ hk, PDict.find?, Ne.symm hi, Ne.symm hk,
                  PDict.find?_set_other kl cid (.dict []) k' hk]
          | some w =>
              cases w with
              | dict inner =>
                  refine ⟨{ st with market_data := PDict.set st.market_data (.str "kline") (.dict (PDict.set kl cid (.dict (PDict.set inner interval kd)))) }, ?_, ?_, ?_, ?_, rfl, rfl, rfl, rfl, rfl⟩
                  · simp [klineWrite, hslot, hcell]
                  · simp [klineAt, innerMap, PDict.find?_set_self]
                  · simp [klineAt, innerMap, PDict.find?_set_self, hslot, hcell,
                      PDict.find?_set_other _ _ _ _ hi, Ne.symm hi, Ne.symm hk]
                  · intro i2
                    simp [klineAt, innerMap, PDict.find?_set_self, hslot,
                      PDict.find?_set_other _ _ _ _ hk, Ne.symm hi, Ne.symm hk]
              | null => simp [klineOkB, hslot, hcell] at hs
              | bool b => simp [klineOkB, hslot, hcell] at hs
              | int n => simp [klineOkB, hslot, hcell] at hs
              | str s => simp [klineOkB, hslot, hcell] at hs
              | list xs => simp [klineOkB, hslot, hcell] at hs
      | null => simp [klineOkB, hslot] at hs
      | bool b => simp [klineOkB, hslot] at hs
      | int n => simp [klineOkB, hslot] at hs
      | str s => simp [klineOkB, hslot] at hs
      | list xs => simp [klineOkB, hslot] at hs

/-- C6: on each WebSocket push notification (position, ticker, K-line, depth)
whose envelope parses and carries truthy key(s), the handler writes the
message's payload into the local map under the key(s) extracted from the
message — contract id, plus interval for K-lines — and entries of the same map
stored under every other key are unchanged by that handler invocation. (The
`market_data` slots are required to be absent or dicts, the only shapes the
program ever stores.) -/
theorem C6_handlers_write_by_key
    (d_p : PyVal) (st_p : TraderState) (pd cid_p kp' : PyVal)
    (hp1 : envelopeData d_p = .ok pd)
    (hp2 : pyGet pd "contractId" .null = .ok cid_p)
    (hp3 : cid_p.truthy = true) (hkp' : kp' ≠ cid_p)
    (d_t : PyVal) (st_t : TraderState) (content tdl : PyVal)
    (tkvs : PDict) (kt' : PyVal)
    (ht1 : pyGet d_t "content" (.dict []) = .ok content)
    (ht2 : pyGet content "data" (.list []) = .ok tdl)
    (ht3 : tickerDatum tdl = .dict tkvs)
    (ht4 : (tickerCid (.dict tkvs)).truthy = true)
    (ht5 : slotOkB st_t "ticker" = true) (hkt' : kt' ≠ tickerCid (.dict tkvs))
    (d_k : PyVal) (st_k : TraderState) (kd_k cid_k iv kk' ii' : PyVal)
    (hk1 : envelopeData d_k = .ok kd_k)
    (hk2 : pyGet kd_k "contractId" .null = .ok cid_k)
    (hk3 : pyGet kd_k "interval" .null = .ok iv)
    (hk4 : cid_k.truthy = true) (hk5 : iv.truthy = true)
    (hk6 : klineOkB st_k cid_k = true) (hkk' : kk' ≠ cid_k) (hii' : ii' ≠ iv)
    (d_d : PyVal) (st_d : TraderState) (dd cid_d kd' : PyVal)
    (hd1 : envelopeData d_d = .ok dd)
    (hd2 : pyGet dd "contractId" .null = .ok cid_d)
    (hd3 : cid_d.truthy = true)
    (hd4 : slotOkB st_d "depth" = true) (hkd' : kd' ≠ cid_d) :
    handle_position_update (some d_p) st_p =
      .ok { st_p with positions := PDict.set st_p.positions cid_p pd } ∧
    PDict.find? (PDict.set st_p.positions cid_p pd) cid_p = some pd ∧
    PDict.find? (PDict.set st_p.positions cid_p pd) kp' =
      PDict.find? st_p.positions kp' ∧
    isOkH (handle_ticker_update (some d_t) st_t) = true ∧
    innerMap (stateOfH (handle_ticker_update (some d_t) st_t) st_t) "ticker"
      (tickerCid (.dict tkvs)) = some (.dict tkvs) ∧
    innerMap (stateOfH (handle_ticker_update (some d_t) st_t) st_t) "ticker" kt' =
      innerMap st_t "ticker" kt' ∧
    isOkH (handle_kline_update (some d_k) st_k) = true ∧
    klineAt (stateOfH (handle_kline_update (some d_k) st_k) st_k) cid_k iv =
      some kd_k ∧
    klineAt (stateOfH (handle_kline_update (some d_k) st_k) st_k) cid_k ii' =
      klineAt st_k cid_k ii' ∧
    klineAt (stateOfH (handle_kline_update (some d_k) st_k) st_k) kk' ii' =
      klineAt st_k kk' ii' ∧
    klineAt (stateOfH (handle_kline_update (some d_k) st_k) st_k) kk' iv =
      klineAt st_k kk' iv ∧
    isOkH (handle_depth_update (some d_d) st_d) = true ∧
    innerMap (stateOfH (handle_depth_update (some d_d) st_d) st_d) "depth" cid_d =
      some dd ∧
    innerMap (stateOfH (handle_depth_update (some d_d) st_d) st_d) "depth" kd' =
      innerMap st_d "depth" kd' := by
  have hpos : handle_position_update (some d_p) st_p =
      .ok { st_p with positions := PDict.set st_p.positions cid_p pd } := by
    simp [handle_position_update, handler_result, jsonLoads, hp1, hp2, hp3,
      Bind.bind, Except.bind, pure, Except.pure]
  obtain ⟨st_t1, hteq, htin1, htin2, _, _, _, _, _⟩ :=
    mdWrite_spec st_t "ticker" (tickerCid (.dict tkvs)) (.dict tkvs) kt' ht5 hkt'
  have htick : handle_ticker_update (some d_t) st_t = .ok st_t1 := by
    simp [handle_ticker_update, handler_result, jsonLoads, ht1, ht2, ht3, ht4,
      hteq, Bind.bind, Except.bind, pure, Except.pure]
  obtain ⟨st_k1, hkeq, hkin1, hkin2, hkin3, _, _, _, _, _⟩ :=
    klineWrite_spec st_k cid_k iv kd_k kk' ii' hk6 hkk' hii'
  have hkli : handle_kline_update (some d_k) st_k = .ok st_k1 := by
    simp [handle_kline_update, handler_result, jsonLoads, hk1, hk2, hk3, hk4, hk5,
      hkeq, Bind.bind, Except.bind, pure, Except.pure]
  obtain ⟨st_d1, hdeq, hdin1, hdin2, _, _, _, _, _⟩ :=
    mdWrite_spec st_d "depth" cid_d dd kd' hd4 hkd'
  have hdep : handle_depth_update (some d_d) st_d = .ok st_d1 := by
    simp [handle_depth_update, handler_result, jsonLoads, hd1, hd2, hd3,
      hdeq, Bind.bind, Except.bind, pure, Except.pure]
  refine ⟨hpos, PDict.find?_set_self _ _ _, PDict.find?_set_other _ _ _ _ hkp',
    ?_, ?_, ?_, ?_, ?_, ?_, ?_, ?_, ?_, ?_, ?_⟩
  · simp [htick, isOkH]
  · simpa [htick, stateOfH] using htin1
  · simpa [htick, stateOfH] using htin2
  · simp [hkli, isOkH]
  · simpa [hkli, stateOfH] using hkin1
  · simpa [hkli, stateOfH] using hkin2
  · simpa [hkli, stateOfH] using hkin3 ii'
  · simpa [hkli, stateOfH] using hkin3 iv
  · simp [hdep, isOkH]
  · simpa [hdep, stateOfH] using hdin1
  · simpa [hdep, stateOfH] using hdin2

theorem C6_handlers_write_by_key_witness :
    (envelopeData msgPos = .ok pdPos ∧
      pyGet pdPos "contractId" .null = .ok (.str "10000001") ∧
      (PyVal.str "10000001").truthy = true ∧
      PyVal.str "10000002" ≠ PyVal.str "10000001" ∧
      pyGet msgTick "content" (.dict []) = .ok (.dict [(.str "data", .list [.dict tkvsTick])]) ∧
      pyGet (.dict [(.str "data", .list [.dict tkvsTick])]) "data" (.list []) =
        .ok (.list [.dict tkvsTick]) ∧
      tickerDatum (.list [.dict tkvsTick]) = .dict tkvsTick ∧
      (tickerCid (.dict tkvsTick)).truthy = true ∧
      slotOkB initState "ticker" = true ∧
      PyVal.str "10000002" ≠ tickerCid (.dict tkvsTick) ∧
      envelopeData msgKli = .ok kdKli ∧
      pyGet kdKli "contractId" .null = .ok (.str "10000001") ∧
      pyGet kdKli "interval" .null = .ok (.str "1m") ∧
      klineOkB initState (.str "10000001") = true ∧
      PyVal.str "5m" ≠ PyVal.str "1m" ∧
      envelopeData msgDep = .ok ddDep ∧
      pyGet ddDep "contractId" .null = .ok (.str "10000001") ∧
      slotOkB initState "depth" = true) ∧
    (handle_position_update (some msgPos) initState =
      .ok { initState with
              positions := PDict.set initState.positions (.str "10000001") pdPos } ∧
    PDict.find? (PDict.set initState.positions (.str "10000001") pdPos)
      (.str "10000001") = some pdPos ∧
    PDict.find? (PDict.set initState.positions (.str "10000001") pdPos)
      (.str "10000002") = PDict.find? initState.positions (.str "10000002") ∧
    isOkH (handle_ticker_update (some msgTick) initState) = true ∧
    innerMap (stateOfH (handle_ticker_update (some msgTick) initState) initState)
      "ticker" (tickerCid (.dict tkvsTick)) = some (.dict tkvsTick) ∧
    innerMap (stateOfH (handle_ticker_update (some msgTick) initState) initState)
      "ticker" (.str "10000002") = innerMap initState "ticker" (.str "10000002") ∧
    isOkH (handle_kline_update (some msgKli) initState) = true ∧
    klineAt (stateOfH (handle_kline_update (some msgKli) initState) initState)
      (.str "10000001") (.str "1m") = some kdKli ∧
    klineAt (stateOfH (handle_kline_update (some msgKli) initState) initState)
      (.str "10000001") (.str "5m") =
      klineAt initState (.str "10000001") (.str "5m") ∧
    klineAt (stateOfH (handle_kline_update (some msgKli) initState) initState)
      (.str "10000002") (.str "5m") =
      klineAt initState (.str "10000002") (.str "5m") ∧
    klineAt (stateOfH (handle_kline_update (some msgKli) initState) initState)
      (.str "10000002") (.str "1m") =
      klineAt initState (.str "10000002") (.str "1m") ∧
    isOkH (handle_depth_update (some msgDep) initState) = true ∧
    innerMap (stateOfH (handle_depth_update (some msgDep) initState) initState)
      "depth" (.str "10000001") = some ddDep ∧
    innerMap (stateOfH (handle_depth_update (some msgDep) initState) initState)
      "depth" (.str "10000002") = innerMap initState "depth" (.str "10000002")) :=
  ⟨by decide,
   C6_handlers_write_by_key
     msgPos initState pdPos (.str "10000001") (.str "10000002")
     (by decide) (by decide) (by decide) (by decide)
     msgTick initState (.dict [(.str "data", .list [.dict tkvsTick])])
     (.list [.dict tkvsTick]) tkvsTick (.str "10000002")
     (by decide) (by decide) (by decide) (by decide) (by decide) (by decide)
     msgKli initState kdKli (.str "10000001") (.str "1m") (.str "10000002")
     (.str "5m")
     (by decide) (by decide) (by decide) (by decide) (by decide) (by decide)
     (by decide) (by decide)
     msgDep initState ddDep (.str "10000001") (.str "10000002")
     (by decide) (by decide) (by decide) (by decide) (by decide)⟩

theorem handler_result_isOk (b : Except PyErr TraderState) (s : TraderState) :
    isOkH (handler_result b s) = true := by
  cases b <;> simp [handler_result, isOkH]

/-- C9: no WebSocket handler propagates an exception to its caller — every
invocation returns normally — a message that is not valid JSON leaves the
state unchanged, and a message whose envelope parses but whose required key(s)
are missing or falsy leaves the local maps unchanged (the order handler never
changes them synchronously; its scheduled refresh is a separate task). -/
theorem C9_handlers_never_propagate
    (m : Option PyVal) (stm st0 : TraderState)
    (d_a : PyVal) (st_a : TraderState) (ad : PyVal)
    (ha1 : envelopeData d_a = .ok ad) (ha2 : ad.truthy = false)
    (d_o : PyVal) (st_o : TraderState)
    (d_p : PyVal) (st_p : TraderState) (pd cid_p : PyVal)
    (hp1 : envelopeData d_p = .ok pd)
    (hp2 : pyGet pd "contractId" .null = .ok cid_p) (hp3 : cid_p.truthy = false)
    (d_t : PyVal) (st_t : TraderState) (ct tl : PyVal)
    (ht1 : pyGet d_t "content" (.dict []) = .ok ct)
    (ht2 : pyGet ct "data" (.list []) = .ok tl)
    (ht3 : (tickerCid (tickerDatum tl)).truthy = false)
    (d_k : PyVal) (st_k : TraderState) (kd cid_k iv : PyVal)
    (hk1 : envelopeData d_k = .ok kd)
    (hk2 : pyGet kd "contractId" .null = .ok cid_k)
    (hk3 : pyGet kd "interval" .null = .ok iv)
    (hk4 : (cid_k.truthy && iv.truthy) = false)
    (d_d : PyVal) (st_d : TraderState) (dd cid_d : PyVal)
    (hd1 : envelopeData d_d = .ok dd)
    (hd2 : pyGet dd "contractId" .null = .ok cid_d) (hd3 : cid_d.truthy = false) :
    isOkH (handle_account_update m stm) = true ∧
    isOkH (handle_order_update m stm) = true ∧
    isOkH (handle_position_update m stm) = true ∧
    isOkH (handle_ticker_update m stm) = true ∧
    isOkH (handle_kline_update m stm) = true ∧
    isOkH (handle_depth_update m stm) = true ∧
    handle_account_update none st0 = .ok st0 ∧
    handle_order_update none st0 = .ok st0 ∧
    handle_position_update none st0 = .ok st0 ∧
    handle_ticker_update none st0 = .ok st0 ∧
    handle_kline_update none st0 = .ok st0 ∧
    handle_depth_update none st0 = .ok st0 ∧
    handle_account_update (some d_a) st_a = .ok st_a ∧
    handle_order_update (some d_o) st_o = .ok st_o ∧
    handle_position_update (some d_p) st_p = .ok st_p ∧
    handle_ticker_update (some d_t) st_t = .ok st_t ∧
    handle_kline_update (some d_k) st_k = .ok st_k ∧
    handle_depth_update (some d_d) st_d = .ok st_d := by
  refine ⟨handler_result_isOk _ _, handler_result_isOk _ _, handler_result_isOk _ _,
    handler_result_isOk _ _, handler_result_isOk _ _, handler_result_isOk _ _,
    ?_, ?_, ?_, ?_, ?_, ?_, ?_, ?_, ?_, ?_, ?_, ?_⟩
  · simp [handle_account_update, handler_result, jsonLoads, Bind.bind, Except.bind]
  · simp [handle_order_update, handler_result, jsonLoads, Bind.bind, Except.bind]
  · simp [handle_position_update, handler_result, jsonLoads, Bind.bind, Except.bind]
  · simp [handle_ticker_update, handler_result, jsonLoads, Bind.bind, Except.bind]
  · simp [handle_kline_update, handler_result, jsonLoads, Bind.bind, Except.bind]
  · simp [handle_depth_update, handler_result, jsonLoads, Bind.bind, Except.bind]
  · simp [handle_account_update, handler_result, jsonLoads, ha1, ha2,
      Bind.bind, Except.bind, pure, Except.pure]
  · simp [handle_order_update, handler_result, jsonLoads,
      Bind.bind, Except.bind, pure, Except.pure]
  · simp [handle_position_update, handler_result, jsonLoads, hp1, hp2, hp3,
      Bind.bind, Except.bind, pure, Except.pure]
  · simp [handle_ticker_update, handler_result, jsonLoads, ht1, ht2, ht3,
      Bind.bind, Except.bind, pure, Except.pure]
  · simp [handle_kline_update, handler_result, jsonLoads, hk1, hk2, hk3, hk4,
      Bind.bind, Except.bind, pure, Except.pure]
  · simp [handle_depth_update, handler_result, jsonLoads, hd1, hd2, hd3,
      Bind.bind, Except.bind, pure, Except.pure]

theorem C9_handlers_never_propagate_witness :
    (envelopeData msgAccEmpty = .ok (.dict []) ∧
      (PyVal.dict []).truthy = false ∧
      envelopeData msgPosNoCid = .ok (.dict [(.str "size", .str "1")]) ∧
      pyGet (.dict [(.str "size", .str "1")]) "contractId" .null = .ok .null ∧
      PyVal.null.truthy = false ∧
      pyGet msgTickEmpty "content" (.dict []) = .ok (.dict [(.str "data", .list [])]) ∧
      pyGet (.dict [(.str "data", .list [])]) "data" (.list []) = .ok (.list []) ∧
      (tickerCid (tickerDatum (.list []))).truthy = false ∧
      envelopeData msgKliNoIv = .ok (.dict [(.str "contractId", .str "10000001")]) ∧
      pyGet (.dict [(.str "contractId", .str "10000001")]) "contractId" .null =
        .ok (.str "10000001") ∧
      pyGet (.dict [(.str "contractId", .str "10000001")]) "interval" .null =
        .ok .null ∧
      ((PyVal.str "10000001").truthy && PyVal.null.truthy) = false ∧
      envelopeData msgDepNoCid = .ok (.dict [(.str "x", .int 1)]) ∧
      pyGet (.dict [(.str "x", .int 1)]) "contractId" .null = .ok .null) ∧
    (isOkH (handle_account_update (some (.str "junk")) initState) = true ∧
    isOkH (handle_order_update (some (.str "junk")) initState) = true ∧
    isOkH (handle_position_update (some (.str "junk")) initState) = true ∧
    isOkH (handle_ticker_update (some (.str "junk")) initState) = true ∧
    isOkH (handle_kline_update (some (.str "junk")) initState) = true ∧
    isOkH (handle_depth_update (some (.str "junk")) initState) = true ∧
    handle_account_update none stStale = .ok stStale ∧
    handle_order_update none stStale = .ok stStale ∧
    handle_position_update none stStale = .ok stStale ∧
    handle_ticker_update none stStale = .ok stStale ∧
    handle_kline_update none stStale = .ok stStale ∧
    handle_depth_update none stStale = .ok stStale ∧
    handle_account_update (some msgAccEmpty) stStale = .ok stStale ∧
    handle_order_update (some (.dict [])) stStale = .ok stStale ∧
    handle_position_update (some msgPosNoCid) stStale = .ok stStale ∧
    handle_ticker_update (some msgTickEmpty) stStale = .ok stStale ∧
    handle_kline_update (some msgKliNoIv) stStale = .ok stStale ∧
    handle_depth_update (some msgDepNoCid) stStale = .ok stStale) :=
  ⟨by decide,
   C9_handlers_never_propagate (some (.str "junk")) initState stStale
     msgAccEmpty stStale (.dict []) (by decide) (by decide)
     (.dict []) stStale
     msgPosNoCid stStale (.dict [(.str "size", .str "1")]) .null
     (by decide) (by decide) (by decide)
     msgTickEmpty stStale (.dict [(.str "data", .list [])]) (.list [])
     (by decide) (by decide) (by decide)
     msgKliNoIv stStale (.dict [(.str "contractId", .str "10000001")])
     (.str "10000001") .null
     (by decide) (by decide) (by decide) (by decide)
     msgDepNoCid stStale (.dict [(.str "x", .int 1)]) .null
     (by decide) (by decide) (by decide)⟩
